import Mathlib

set_option linter.unusedVariables false

/-- The three stages of one training epoch in the speechbrain Brain loop
(`sb.Stage` as used throughout `train.py`). -/
inductive Stage where
  | TRAIN : Stage
  | VALID : Stage
  | TEST : Stage
deriving DecidableEq, Repr

/-- The `TrainMode` enumeration from `train.py`: NORMAL trains the plain
sequence-to-sequence model, HOMOGRAPH fine-tunes a trained model on
homographs. -/
inductive TrainMode where
  | NORMAL : TrainMode
  | HOMOGRAPH : TrainMode
deriving DecidableEq, Repr

/-- The configuration values `G2PBrain` reads for loss composition and
decoding: `has_ctc` mirrors `hasattr(self.hparams, "ctc_lin")` read in
`__init__`; `ctc_weight` and `homograph_loss_weight` mirror the same-named
hyperparameters used in `compute_objectives`; `enable_metrics` mirrors
`getattr(self.hparams, "enable_metrics", True)`. -/
structure G2PConfig where
  has_ctc : Bool
  ctc_weight : ℚ
  homograph_loss_weight : ℚ
  enable_metrics : Bool

/-- `G2PBrain.is_ctc_active` (train.py lines 386-401): returns false when no
`ctc_lin` module is configured or the stage is not TRAIN; otherwise it is
true exactly when the epoch counter's current epoch is at most the training
step's `ctc_epochs` cutoff. -/
def is_ctc_active (cfg : G2PConfig) (ctc_epochs current_epoch : Nat)
    (stage : Stage) : Bool :=
  if !cfg.has_ctc || stage != Stage.TRAIN then false
  else decide (current_epoch ≤ ctc_epochs)

/-- The sequence/CTC loss combination of `G2PBrain.compute_objectives`
(train.py lines 219-232), before the homograph term: when
`is_ctc_active(stage)` holds the loss is
`(1 - ctc_weight) * loss_seq + ctc_weight * loss_ctc`
(the code binds `seq_weight = 1 - self.hparams.ctc_weight`); otherwise it is
`loss_seq` alone. -/
def composeLoss (cfg : G2PConfig) (ctc_epochs current_epoch : Nat)
    (stage : Stage) (loss_seq loss_ctc : ℚ) : ℚ :=
  if is_ctc_active cfg ctc_epochs current_epoch stage then
    (1 - cfg.ctc_weight) * loss_seq + cfg.ctc_weight * loss_ctc
  else loss_seq

/-- The result of `G2PBrain.compute_objectives` (train.py lines 203-271):
the composed scalar loss, plus which metric accumulators the call appends to
as a side effect (`seq_metrics`, `per_metrics`, and the homograph family via
`_add_homograph_metrics`). -/
structure ObjectivesResult where
  loss : ℚ
  seq_metrics_appended : Bool
  per_metrics_appended : Bool
  homograph_metrics_appended : Bool
deriving DecidableEq, Repr

/-- `G2PBrain.compute_objectives` (train.py lines 203-271). The primary
sequence loss and CTC loss values produced by the external `seq_cost` and
`ctc_cost` collaborators are inputs (`loss_seq`, `loss_ctc`), as is the
external `homograph_cost` value. When the mode is HOMOGRAPH the weighted
homograph term is added unconditionally. Metrics are appended only when
`enable_metrics` holds and the stage is not TRAIN; the homograph metric
family additionally requires HOMOGRAPH mode. -/
def compute_objectives (cfg : G2PConfig) (ctc_epochs current_epoch : Nat)
    (mode : TrainMode) (stage : Stage)
    (loss_seq loss_ctc homograph_cost_val : ℚ) : ObjectivesResult :=
  let base := composeLoss cfg ctc_epochs current_epoch stage loss_seq loss_ctc
  let loss :=
    if mode = TrainMode.HOMOGRAPH then
      base + cfg.homograph_loss_weight * homograph_cost_val
    else base
  let appended := cfg.enable_metrics && (stage != Stage.TRAIN)
  { loss := loss
  , seq_metrics_appended := appended
  , per_metrics_appended := appended
  , homograph_metrics_appended := appended && decide (mode = TrainMode.HOMOGRAPH) }

/-- The tuple returned by the external model callable inside
`G2PBrain.compute_forward` (train.py lines 178-182). -/
structure ModelOutput where
  p_seq : List (List ℚ)
  char_lens : List ℚ
  encoder_out : List (List ℚ)
  attn : List (List ℚ)

/-- The `G2PPredictions` named tuple from `train.py` (lines 100-104):
`p_seq`, `char_lens`, optional decoded hypotheses, optional CTC
log-probabilities, attention weights. -/
structure G2PPredictions where
  p_seq : List (List ℚ)
  char_lens : List ℚ
  hyps : Option (List (List Nat))
  ctc_logprobs : Option (List (List ℚ))
  attn : List (List ℚ)

/-- `G2PBrain.compute_forward` (train.py lines 161-201). The external model,
the CTC head (`ctc_lin` followed by `log_softmax`) and the two beam
searchers are inputs. CTC log-probabilities are produced only when the stage
is TRAIN and `is_ctc_active` holds; beam-search hypotheses are produced only
when the stage is not TRAIN and `enable_metrics` holds, with the VALID stage
using `beam_searcher_valid` and TEST using `beam_searcher`. -/
def compute_forward (cfg : G2PConfig) (ctc_epochs current_epoch : Nat)
    (stage : Stage) (m : ModelOutput)
    (beam_searcher : List (List ℚ) → List ℚ → List (List Nat))
    (beam_searcher_valid : List (List ℚ) → List ℚ → List (List Nat))
    (ctc_lin_log_softmax : List (List ℚ) → List (List ℚ)) : G2PPredictions :=
  let ctc_logprobs :=
    if stage = Stage.TRAIN ∧ is_ctc_active cfg ctc_epochs current_epoch stage = true then
      some (ctc_lin_log_softmax m.encoder_out)
    else Option.none
  let hyps :=
    if stage ≠ Stage.TRAIN ∧ cfg.enable_metrics = true then
      let bs := if stage = Stage.VALID then beam_searcher_valid else beam_searcher
      some (bs m.encoder_out m.char_lens)
    else Option.none
  { p_seq := m.p_seq, char_lens := m.char_lens, hyps := hyps
  , ctc_logprobs := ctc_logprobs, attn := m.attn }

/-- The learning-rate annealing object referenced by
`self.hparams.lr_annealing` in `train.py`. A scheduler is one of: absent
(`None` in the hyperparameter file), a `NewBobScheduler` (called with the
validation error rate), a `ReduceLROnPlateau` scheduler (called with the
current epoch and a current-loss value), or any other scheduler (called with
the epoch only, as in the final `else` branch of `on_stage_end`). Each
carries its transition function returning the `(old_lr, new_lr)` pair. -/
inductive LRAnnealing where
  | noSched : LRAnnealing
  | newBob (f : ℚ → ℚ × ℚ) : LRAnnealing
  | reduceLROnPlateau (f : ℚ → ℚ → ℚ × ℚ) : LRAnnealing
  | other (f : ℚ → ℚ × ℚ) : LRAnnealing

/-- Discriminates the `noSched` constructor, mirroring the
`self.hparams.lr_annealing is not None` tests in `fit_batch` and
`on_stage_end`. -/
def LRAnnealing.isNoSched : LRAnnealing → Bool
  | LRAnnealing.noSched => true
  | _ => false

/-- The mutable brain state read by `G2PBrain.on_stage_end` (train.py lines
475-568): `train_loss` is set by the TRAIN branch of the same method;
`lr_annealing` is the object `self.hparams.lr_annealing` (the method reads
the hyperparameter directly, see lines 484-505); `per` is
`self.per_metrics.summarize("error_rate")` over the full-sequence
accumulator; `per_homograph` is
`self.per_metrics_homograph.summarize("error_rate")` over the
homograph-only accumulator; `seq_loss_avg` and `seq_loss_homograph_avg` are
the corresponding `summarize("average")` values. -/
structure BrainState where
  train_loss : ℚ
  mode : TrainMode
  enable_metrics : Bool
  lr_annealing : LRAnnealing
  lr_annealing_mode : String
  ckpt_enable : Bool
  ckpt_frequency : Nat
  current_lr : ℚ
  per : ℚ
  per_homograph : ℚ
  seq_loss_avg : ℚ
  seq_loss_homograph_avg : ℚ

/-- The record handed to `checkpointer.save_and_keep_only` at VALID-stage
end (train.py lines 549-554): the metadata dictionary, the `min_keys` list,
and whether the homograph-presence `ckpt_predicate` (`_has_homograph_per`)
is attached. -/
structure Ckpt where
  meta : List (String × ℚ)
  min_keys : Option (List String)
  uses_homograph_pred : Bool
deriving DecidableEq, Repr

/-- The externally observable effects of one `G2PBrain.on_stage_end` call:
the value assigned to `self.train_loss` (TRAIN only), the `(old_lr, new_lr)`
pair applied to the optimizer (VALID only), the `valid_stats` record passed
to the train logger (VALID only), and the checkpoint save request (VALID
only, when enabled and due). -/
structure StageEndResult where
  train_loss_set : Option ℚ
  lr : Option (ℚ × ℚ)
  valid_stats : List (String × ℚ)
  ckpt : Option Ckpt

/-- The learning-rate annealing step at VALID-stage end (train.py lines
483-509). Annealing runs only when `self.hparams.lr_annealing is not None`
and `lr_annealing_mode == "epoch"`; otherwise the rate is unchanged. A
`NewBobScheduler` is called with the summarized PER when metrics are
enabled (when they are not, control falls to the final `else` branch, which
calls the scheduler with the epoch number); a `ReduceLROnPlateau` scheduler
is called with `current_epoch=epoch` and `current_loss=self.train_loss`;
any other scheduler is called with the epoch. -/
def computeNewLR (b : BrainState) (epoch : Nat) : ℚ × ℚ :=
  if b.lr_annealing_mode = "epoch" then
    match b.lr_annealing with
    | LRAnnealing.noSched => (b.current_lr, b.current_lr)
    | LRAnnealing.newBob f =>
        if b.enable_metrics then f b.per else f (epoch : ℚ)
    | LRAnnealing.reduceLROnPlateau f => f (epoch : ℚ) b.train_loss
    | LRAnnealing.other f => f (epoch : ℚ)
  else (b.current_lr, b.current_lr)

/-- `G2PBrain.on_stage_end` (train.py lines 475-568). The TRAIN branch
records the stage loss as `self.train_loss`. The VALID branch computes the
new learning rate, assembles the `valid_stats` record (always `loss`; with
metrics enabled also `seq_loss` and `PER`, and in HOMOGRAPH mode
`seq_loss_homograph` and `PER_homograph` summarized from the homograph
accumulators), builds the checkpoint metadata (in HOMOGRAPH mode the
dictionary `{"PER_homograph": per}` — the code stores the variable `per`,
line 536 — with `min_keys=["PER_homograph"]` and the `_has_homograph_per`
predicate; otherwise `{"PER": per}` with `min_keys=["PER"]`), and requests a
checkpoint save exactly when `ckpt_enable` holds and
`epoch % ckpt_frequency == 0`. The TEST branch logs only. -/
def on_stage_end (b : BrainState) (stage : Stage) (stage_loss : ℚ)
    (epoch : Nat) : StageEndResult :=
  if stage = Stage.TRAIN then
    { train_loss_set := some stage_loss, lr := Option.none
    , valid_stats := [], ckpt := Option.none }
  else if stage = Stage.VALID then
    let lrPair := computeNewLR b epoch
    let metricStats :=
      if b.enable_metrics then
        [("seq_loss", b.seq_loss_avg), ("PER", b.per)] ++
          (if b.mode = TrainMode.HOMOGRAPH then
            [("seq_loss_homograph", b.seq_loss_homograph_avg),
             ("PER_homograph", b.per_homograph)]
          else [])
      else []
    let ckptData : List (String × ℚ) × Option (List String) × Bool :=
      if b.enable_metrics then
        if b.mode = TrainMode.HOMOGRAPH then
          ([("PER_homograph", b.per)], some ["PER_homograph"], true)
        else
          ([("PER", b.per)], some ["PER"], false)
      else ([], Option.none, false)
    { train_loss_set := Option.none
    , lr := some lrPair
    , valid_stats := ("loss", stage_loss) :: metricStats
    , ckpt :=
        if b.ckpt_enable && decide (epoch % b.ckpt_frequency = 0) then
          some { meta := ckptData.1, min_keys := ckptData.2.1
               , uses_homograph_pred := ckptData.2.2 }
        else Option.none }
  else
    { train_loss_set := Option.none, lr := Option.none
    , valid_stats := [], ckpt := Option.none }

/-- The value bound to `self.lr_annealing` in `G2PBrain.__init__` (train.py
lines 144-146): `getattr(self.train_step, "lr_annealing",
self.hparams.lr_annealing)`. `self.train_step` is a plain Python `dict`
(its elements are accessed as `step["name"]` on line 131), and `getattr`
looks up object attributes, never dictionary keys, so for a key such as
`"lr_annealing"` held in the step dictionary the lookup always falls
through to the default `self.hparams.lr_annealing`, whatever the dictionary
holds. The dictionary items are taken as an argument to record exactly that
independence. -/
def brainInitLRAnnealing (train_step_items : List (String × LRAnnealing))
    (hparams_lr_annealing : LRAnnealing) : LRAnnealing :=
  hparams_lr_annealing

/-- The externally observable effects of one `G2PBrain.fit_batch` call:
how many forward passes ran, whether `optimizer.step()` ran, whether
gradients were zeroed, which scheduler object (if any) was applied by the
step-granularity annealing branch, and the detached loss returned. -/
structure FitBatchResult where
  forward_passes : Nat
  optimizer_stepped : Bool
  grad_zeroed : Bool
  scheduler_applied : Option LRAnnealing
  returned_loss : ℚ

/-- `G2PBrain.fit_batch` (train.py lines 403-418): one forward pass and one
loss computation, `loss.backward()`, then `optimizer.step()` exactly when
`self.check_gradients(loss)` passes (the outcome of that external finiteness
check is the `gradients_ok` input); gradients are zeroed unconditionally;
when `self.hparams.lr_annealing is not None` and the annealing mode is
`"step"`, the hyperparameter scheduler `self.hparams.lr_annealing` is
applied to the optimizer; `loss.detach()` is returned in every case, with
no retry of the batch. -/
def fit_batch (hparams_lr_annealing : LRAnnealing) (lr_annealing_mode : String)
    (gradients_ok : Bool) (loss : ℚ) : FitBatchResult :=
  { forward_passes := 1
  , optimizer_stepped := gradients_ok
  , grad_zeroed := true
  , scheduler_applied :=
      if !hparams_lr_annealing.isNoSched && decide (lr_annealing_mode = "step") then
        some hparams_lr_annealing
      else Option.none
  , returned_loss := loss }

/-- One entry of `hparams["train_steps"]` as consumed by the `__main__`
loop: the step name, the `epoch_counter.limit` value, and the number of
batches one epoch would process (abstracting the data pipeline size). -/
structure TrainStepCfg where
  name : String
  epoch_limit : Int
  batches_per_epoch : Nat
deriving DecidableEq, Repr

/-- What the `__main__` loop body does for one training step: whether the
data pipeline was built (`dataio_prep`), whether a `G2PBrain` was
instantiated, how many forward passes ran, and whether an error was
raised. -/
structure StepEffects where
  name : String
  pipeline_built : Bool
  brain_made : Bool
  forward_passes : Nat
  errored : Bool
deriving DecidableEq, Repr

/-- One iteration of the `__main__` training-step loop (train.py lines
1159-1233): `epochs = train_step["epoch_counter"].limit`; when
`epochs < 1` the step is skipped with a log line and `continue` — no
`dataio_prep`, no `G2PBrain`, no forward pass, no error; otherwise the
pipeline is built, a brain is instantiated and the fit loop runs its epoch
budget over the step's batches. -/
def runTrainStep (s : TrainStepCfg) : StepEffects :=
  if s.epoch_limit < 1 then
    { name := s.name, pipeline_built := false, brain_made := false
    , forward_passes := 0, errored := false }
  else
    { name := s.name, pipeline_built := true, brain_made := true
    , forward_passes := s.epoch_limit.toNat * s.batches_per_epoch
    , errored := false }

/-- The `__main__` loop `for train_step in hparams["train_steps"]`
(train.py line 1159): steps are processed in declared order, each
independently skipped or run. -/
def runTrainSteps (steps : List TrainStepCfg) : List StepEffects :=
  steps.map runTrainStep

/-- `G2PBrain._remove_special` (train.py lines 370-384): keeps exactly the
tokens `token` of the list with `"<" not in token`; since the needle is the
single character `<`, Python substring membership is containment of that
character among the token's characters. -/
def remove_special (phn : List String) : List String :=
  phn.filter (fun token => !token.toList.contains '<')

/-- `G2PBrain._phonemes_to_label` (train.py lines 353-368): decodes a batch
of phoneme sequences with the external `out_phoneme_decoder` collaborator
(an input here) and renders each decoded item as a space-separated label
string after `_remove_special`. -/
def phonemes_to_label (out_phoneme_decoder : List (List Nat) → List (List String))
    (phns : List (List Nat)) : List String :=
  (out_phoneme_decoder phns).map (fun item => " ".intercalate (remove_special item))

/-- Modelled from the spec: the edit-distance-based error-rate core used by
the PER accumulators (`speechbrain.utils.edit_distance`, which is part of
the repository but not included under `src/`): the Levenshtein distance
between a hypothesis token sequence and a target token sequence, with unit
insertion, deletion and substitution costs. -/
def levDistance {α : Type} [DecidableEq α] : List α → List α → Nat
  | [], ys => ys.length
  | x :: xs, [] => (x :: xs).length
  | x :: xs, y :: ys =>
    if x = y then levDistance xs ys
    else 1 + min (levDistance xs (y :: ys))
            (min (levDistance (x :: xs) ys) (levDistance xs ys))
termination_by xs ys => xs.length + ys.length
decreasing_by all_goals (simp [List.length_cons]; try omega)

/-- The stripping criterion stated by the spec, for comparison with the
code's `_remove_special`: a token that is a special token delimited by
angle brackets, i.e. one whose first character is `<` and whose last
character is `>`. -/
def spec_isAngleBracketDelimited (token : String) : Bool :=
  decide (token.toList.head? = some '<') && decide (token.toList.getLast? = some '>')

/-- The `save_for_pretrained` minimization key chosen at the end of the
`__main__` step loop (train.py lines 1228-1232):
`"PER_homograph" if hparams.get("mode") == "homograph" else "PER"` —
a lookup in the global hyperparameter dictionary. -/
def save_for_pretrained_min_key (hparams_mode : Option String) : String :=
  if hparams_mode = some "homograph" then "PER_homograph" else "PER"

/-- The deployable-artifact export at the end of one `__main__` step
iteration (train.py lines 1227-1233): when `hparams.get
("save_for_pretrained")` is set, `save_for_pretrained` is called with the
minimization key from the global dictionary; the executed step's own mode
is taken as an argument to record that the code never consults it. Returns
the min key used, or none when export is disabled. -/
def runStepExport (hparams_mode : Option String) (save_enabled : Bool)
    (step_mode : TrainMode) : Option String :=
  if save_enabled then some (save_for_pretrained_min_key hparams_mode)
  else Option.none

/-- The minimization key the spec describes for the export: chosen from the
executed training step's mode. -/
def spec_step_min_key (step_mode : TrainMode) : String :=
  if step_mode = TrainMode.HOMOGRAPH then "PER_homograph" else "PER"

/-- A baseline brain state used by the concrete instances below. -/
def baseBrain : BrainState :=
  { train_loss := 1, mode := TrainMode.NORMAL, enable_metrics := true
  , lr_annealing := LRAnnealing.noSched, lr_annealing_mode := "epoch"
  , ckpt_enable := true, ckpt_frequency := 1, current_lr := 1
  , per := 0, per_homograph := 0, seq_loss_avg := 0
  , seq_loss_homograph_avg := 0 }

/-- A HOMOGRAPH-mode VALID-stage-end state in which the full-sequence PER
(30, in percent) and the homograph-only PER (10) differ. -/
def bHomog : BrainState :=
  { baseBrain with
      mode := TrainMode.HOMOGRAPH
      per := 30
      per_homograph := 10
      seq_loss_avg := 2
      seq_loss_homograph_avg := 3 }

/-- A plateau transition function whose output visibly depends on the loss
it is fed. -/
def plateauF : ℚ → ℚ → ℚ × ℚ := fun _ loss => (loss, loss)

/-- A brain state configured with per-epoch `ReduceLROnPlateau` annealing
and training loss 2. -/
def bPlatA : BrainState :=
  { baseBrain with
      train_loss := 2
      lr_annealing := LRAnnealing.reduceLROnPlateau plateauF }

/-- The same state as `bPlatA` except for the training loss. -/
def bPlatB : BrainState := { bPlatA with train_loss := 0 }

/-- A brain state with checkpointing enabled and `ckpt_frequency = 2`. -/
def bFreq2 : BrainState := { baseBrain with ckpt_frequency := 2 }

/-- A brain state with checkpointing disabled. -/
def bCkptOff : BrainState := { baseBrain with ckpt_enable := false }

/-- A concrete global scheduler for the step-local override experiment. -/
def globalSchedC4 : LRAnnealing := LRAnnealing.other (fun _ => (1, 1/2))

/-- A concrete step-local scheduler, distinct from `globalSchedC4`, placed
under the `"lr_annealing"` key of a training-step dictionary. -/
def stepSchedC4 : LRAnnealing := LRAnnealing.newBob (fun _ => (1, 1/4))

/-- A concrete phoneme decoder used by witnesses: every sequence decodes to
the same two labels, one of them a reserved token. -/
def decoderW : List (List Nat) → List (List String) :=
  fun phns => phns.map (fun _ => ["AY", "<eos>"])

/-- Helper: the Levenshtein distance of a sequence to itself is zero. -/
theorem levDistance_self {α : Type} [DecidableEq α] :
    ∀ xs : List α, levDistance xs xs = 0
  | [] => by simp [levDistance]
  | x :: xs => by simp [levDistance, levDistance_self xs]

/-- Helper: every pair drawn from a list zipped with itself has equal
components. -/
theorem zip_self_fst_eq_snd {α : Type} :
    ∀ (l : List α) (p : α × α), p ∈ l.zip l → p.1 = p.2
  | [], p, h => by simp [List.zip] at h
  | x :: xs, p, h => by
      rcases List.mem_cons.mp (by simpa using h) with h1 | h1
      · simp [h1]
      · exact zip_self_fst_eq_snd xs p h1

/-- C1: the auxiliary CTC loss is included in the composed loss exactly when
a `ctc_lin` head exists, the stage is TRAIN and the current epoch is at most
the step's `ctc_epochs` cutoff; when included the composed loss (before any
homograph term) is `(1 - ctc_weight) * loss_seq + ctc_weight * loss_ctc`,
and otherwise it is `loss_seq` for every value of the weight. -/
theorem ctc_aux_loss_gating_and_composition (cfg : G2PConfig)
    (ctc_epochs current_epoch : Nat) (stage : Stage) (ls lc : ℚ) :
    (is_ctc_active cfg ctc_epochs current_epoch stage = true ↔
      cfg.has_ctc = true ∧ stage = Stage.TRAIN ∧ current_epoch ≤ ctc_epochs)
    ∧ (is_ctc_active cfg ctc_epochs current_epoch stage = true →
        composeLoss cfg ctc_epochs current_epoch stage ls lc
          = (1 - cfg.ctc_weight) * ls + cfg.ctc_weight * lc)
    ∧ (is_ctc_active cfg ctc_epochs current_epoch stage = false →
        ∀ w : ℚ,
          composeLoss { cfg with ctc_weight := w } ctc_epochs current_epoch
            stage ls lc = ls) := by
  refine ⟨?_, ?_, ?_⟩
  · simp only [is_ctc_active]
    by_cases hc : cfg.has_ctc <;> by_cases hs : stage = Stage.TRAIN <;>
      simp [hc, hs]
  · intro h; simp [composeLoss, h]
  · intro h w
    have h2 : is_ctc_active { cfg with ctc_weight := w } ctc_epochs
        current_epoch stage = false := by
      simpa [is_ctc_active] using h
    simp [composeLoss, h2]

/-- Witness for C1: a concrete configuration with a CTC head, weight 1/3,
cutoff 2, at TRAIN epoch 1, has the auxiliary loss active and composes
sequence loss 5 with CTC loss 8 as the weighted sum. -/
theorem ctc_aux_loss_gating_and_composition_witness :
    is_ctc_active ⟨true, 1/3, 2, true⟩ 2 1 Stage.TRAIN = true
    ∧ composeLoss ⟨true, 1/3, 2, true⟩ 2 1 Stage.TRAIN 5 8
        = (1 - (1 : ℚ)/3) * 5 + (1/3) * 8 := by
  have h := ctc_aux_loss_gating_and_composition ⟨true, 1/3, 2, true⟩ 2 1
      Stage.TRAIN 5 8
  have ha : is_ctc_active ⟨true, 1/3, 2, true⟩ 2 1 Stage.TRAIN = true :=
    h.1.mpr ⟨rfl, rfl, by decide⟩
  exact ⟨ha, h.2.1 ha⟩

/-- C5: at VALID-stage end a checkpoint is saved exactly when checkpointing
is enabled and the epoch is a multiple of the configured frequency, and
with checkpointing disabled no stage ever saves one. -/
theorem ckpt_saved_iff_enabled_and_epoch_multiple (b : BrainState) (sl : ℚ)
    (epoch : Nat) (hN : 0 < b.ckpt_frequency) :
    ((on_stage_end b Stage.VALID sl epoch).ckpt.isSome
      = (b.ckpt_enable && decide (epoch % b.ckpt_frequency = 0)))
    ∧ (b.ckpt_enable = false →
        ∀ st : Stage, (on_stage_end b st sl epoch).ckpt = Option.none) := by
  constructor
  · by_cases he : b.ckpt_enable = true <;>
      by_cases hm : epoch % b.ckpt_frequency = 0 <;>
        simp [on_stage_end, he, hm, Bool.not_eq_true] at *
  · intro hoff st
    cases st <;> simp [on_stage_end, hoff]

/-- Witness for C5: with `ckpt_frequency = 2` no checkpoint is saved at
epochs 1 and 3, one is saved at epochs 2 and 4, and with checkpointing
disabled none is saved. -/
theorem ckpt_saved_iff_enabled_and_epoch_multiple_witness :
    (on_stage_end bFreq2 Stage.VALID 0 1).ckpt.isSome = false
    ∧ (on_stage_end bFreq2 Stage.VALID 0 2).ckpt.isSome = true
    ∧ (on_stage_end bFreq2 Stage.VALID 0 3).ckpt.isSome = false
    ∧ (on_stage_end bFreq2 Stage.VALID 0 4).ckpt.isSome = true
    ∧ (on_stage_end bCkptOff Stage.VALID 0 2).ckpt = Option.none := by
  refine ⟨?_, ?_, ?_, ?_, ?_⟩
  · exact ((ckpt_saved_iff_enabled_and_epoch_multiple bFreq2 0 1
      (by decide)).1).trans (by decide)
  · exact ((ckpt_saved_iff_enabled_and_epoch_multiple bFreq2 0 2
      (by decide)).1).trans (by decide)
  · exact ((ckpt_saved_iff_enabled_and_epoch_multiple bFreq2 0 3
      (by decide)).1).trans (by decide)
  · exact ((ckpt_saved_iff_enabled_and_epoch_multiple bFreq2 0 4
      (by decide)).1).trans (by decide)
  · exact (ckpt_saved_iff_enabled_and_epoch_multiple bCkptOff 0 2
      (by decide)).2 rfl Stage.VALID

/-- C6: in the curriculum loop any configured step whose epoch-counter
limit is below 1 is skipped entirely — no data pipeline, no brain, no
forward pass, no error — while the loop still yields one effects record per
configured step in declared order. -/
theorem train_step_skipped_when_epoch_limit_below_one
    (steps : List TrainStepCfg) (i : Nat) (h : i < steps.length)
    (hlim : (steps.get ⟨i, h⟩).epoch_limit < 1) :
    (runTrainSteps steps).length = steps.length
    ∧ (∀ j (hj : j < (runTrainSteps steps).length),
        (runTrainSteps steps).get ⟨j, hj⟩
          = runTrainStep (steps.get ⟨j, by simpa [runTrainSteps] using hj⟩))
    ∧ runTrainStep (steps.get ⟨i, h⟩)
        = { name := (steps.get ⟨i, h⟩).name, pipeline_built := false
          , brain_made := false, forward_passes := 0, errored := false } := by
  refine ⟨by simp [runTrainSteps], ?_, ?_⟩
  · intro j hj
    simp [runTrainSteps]
  · simp only [List.get_eq_getElem] at hlim
    simp [runTrainStep, hlim]

/-- Witness for C6: of two configured steps, the first with epoch limit 0 is
skipped with zero forward passes and the loop output still has both
entries. -/
theorem train_step_skipped_when_epoch_limit_below_one_witness :
    (runTrainSteps [⟨"sentence", 0, 5⟩, ⟨"homograph", 2, 5⟩]).length = 2
    ∧ runTrainStep (([⟨"sentence", 0, 5⟩, ⟨"homograph", 2, 5⟩] :
        List TrainStepCfg).get ⟨0, by decide⟩)
        = ⟨"sentence", false, false, 0, false⟩ := by
  have h := train_step_skipped_when_epoch_limit_below_one
      [⟨"sentence", 0, 5⟩, ⟨"homograph", 2, 5⟩] 0 (by decide) (by decide)
  exact ⟨h.1.trans rfl, h.2.2⟩

/-- C7: `fit_batch` runs the optimizer step exactly when the gradient check
passes, zeroes gradients in both cases, returns the detached loss in both
cases, and processes the batch exactly once — no retry. -/
theorem gradient_check_skips_optimizer_step_only (hp : LRAnnealing)
    (mode : String) (g : Bool) (l : ℚ) :
    (fit_batch hp mode g l).optimizer_stepped = g
    ∧ (fit_batch hp mode g l).returned_loss = l
    ∧ (fit_batch hp mode g l).forward_passes = 1
    ∧ (fit_batch hp mode g l).grad_zeroed = true :=
  ⟨rfl, rfl, rfl, rfl⟩

/-- C2: at a HOMOGRAPH-mode VALID-stage end where the full-sequence PER is
30 and the homograph-only PER is 10, the checkpoint metadata stores the
full-sequence value 30 under the `PER_homograph` minimization key, while
the logged `valid_stats` record carries the homograph accumulator's summary
10 under the same name — the checkpoint metadata records the wrong
variable. -/
theorem homograph_ckpt_meta_stores_full_sequence_per :
    bHomog.per = 30 ∧ bHomog.per_homograph = 10
    ∧ (on_stage_end bHomog Stage.VALID 2 4).ckpt =
        some { meta := [("PER_homograph", 30)]
             , min_keys := some ["PER_homograph"]
             , uses_homograph_pred := true }
    ∧ (on_stage_end bHomog Stage.VALID 2 4).valid_stats.lookup "PER_homograph"
        = some 10 := by
  exact ⟨rfl, rfl, by decide, by decide⟩

/-- C3 counterexample: two VALID-stage-end states identical except for the
training loss, given the same validation stage loss 9 at epoch 5 under a
per-epoch `ReduceLROnPlateau` scheduler, produce different new learning
rates — following the training losses 2 and 0 — so the new rate is not a
function of the validation loss. -/
theorem plateau_annealing_ignores_valid_loss_cx :
    (on_stage_end bPlatA Stage.VALID 9 5).lr = some (2, 2)
    ∧ (on_stage_end bPlatB Stage.VALID 9 5).lr = some (0, 0)
    ∧ (on_stage_end bPlatA Stage.VALID 9 5).lr
        ≠ (on_stage_end bPlatB Stage.VALID 9 5).lr := by
  have h1 : (on_stage_end bPlatA Stage.VALID 9 5).lr = some (2, 2) := by decide
  have h2 : (on_stage_end bPlatB Stage.VALID 9 5).lr = some (0, 0) := by decide
  refine ⟨h1, h2, ?_⟩
  rw [h1, h2]
  decide

/-- C3 amended: with a per-epoch `ReduceLROnPlateau` scheduler, the new
learning rate computed at VALID-stage end is the scheduler applied to the
epoch and the just-completed training loss (`self.train_loss`), not to the
validation loss: the result is invariant under changing the VALID stage
loss. -/
theorem plateau_annealing_uses_train_loss (b : BrainState)
    (f : ℚ → ℚ → ℚ × ℚ) (sl : ℚ) (epoch : Nat)
    (hs : b.lr_annealing = LRAnnealing.reduceLROnPlateau f)
    (hm : b.lr_annealing_mode = "epoch") :
    (on_stage_end b Stage.VALID sl epoch).lr
      = some (f (epoch : ℚ) b.train_loss)
    ∧ ∀ sl2 : ℚ,
        (on_stage_end b Stage.VALID sl2 epoch).lr
          = (on_stage_end b Stage.VALID sl epoch).lr := by
  constructor
  · simp [on_stage_end, computeNewLR, hs, hm]
  · intro sl2
    simp [on_stage_end, computeNewLR, hs, hm]

/-- Witness for C3's amended statement at the concrete plateau state: the
scheduler output is `plateauF` applied to epoch 5 and the training loss. -/
theorem plateau_annealing_uses_train_loss_witness :
    (on_stage_end bPlatA Stage.VALID 9 5).lr
      = some (plateauF ((5 : Nat) : ℚ) bPlatA.train_loss) :=
  (plateau_annealing_uses_train_loss bPlatA plateauF 9 5 rfl rfl).1

/-- C4: a training-step dictionary carrying its own `"lr_annealing"` entry
does not override the global scheduler: the `getattr` lookup on the step
`dict` in `__init__` always falls through to `self.hparams.lr_annealing`,
and the step-granularity annealing in `fit_batch` applies that global
scheduler, not the step-local one. -/
theorem step_local_lr_annealing_override_ignored :
    brainInitLRAnnealing [("lr_annealing", stepSchedC4)] globalSchedC4
      = globalSchedC4
    ∧ (fit_batch globalSchedC4 "step" true 1).scheduler_applied
        = some globalSchedC4
    ∧ (fit_batch globalSchedC4 "step" true 1).scheduler_applied
        ≠ some stepSchedC4 := by
  refine ⟨rfl, rfl, fun h => ?_⟩
  have h1 : (fit_batch globalSchedC4 "step" true 1).scheduler_applied
      = some globalSchedC4 := rfl
  rw [h1] at h
  have h2 : globalSchedC4 = stepSchedC4 := Option.some.inj h
  simp only [globalSchedC4, stepSchedC4] at h2
  exact LRAnnealing.noConfusion h2

/-- C8 counterexample: with no `"mode"` entry in the global hyperparameter
dictionary, a step executing in HOMOGRAPH mode exports with minimization
key `PER`, not the `PER_homograph` the claim requires for that step. -/
theorem export_min_key_ignores_step_mode_cx :
    runStepExport Option.none true TrainMode.HOMOGRAPH = some "PER"
    ∧ spec_step_min_key TrainMode.HOMOGRAPH = "PER_homograph"
    ∧ runStepExport Option.none true TrainMode.HOMOGRAPH
        ≠ some (spec_step_min_key TrainMode.HOMOGRAPH) := by
  refine ⟨rfl, rfl, by decide⟩

/-- C8 amended: the export minimization key follows the global
hyperparameter dictionary's `"mode"` entry — `PER_homograph` exactly when
that entry is `"homograph"` — independently of the executed step's mode,
and nothing is exported when the export flag is off. -/
theorem export_min_key_follows_global_mode (hm : Option String)
    (sm : TrainMode) :
    (runStepExport hm true sm = some "PER_homograph" ↔ hm = some "homograph")
    ∧ (∀ sm2 : TrainMode, runStepExport hm true sm = runStepExport hm true sm2)
    ∧ runStepExport hm false sm = Option.none := by
  refine ⟨?_, fun sm2 => rfl, rfl⟩
  by_cases h : hm = some "homograph"
  · simp [runStepExport, save_for_pretrained_min_key, h]
  · constructor
    · intro hh
      have hx : save_for_pretrained_min_key hm = "PER_homograph" := by
        simpa [runStepExport] using hh
      have hy : save_for_pretrained_min_key hm = "PER" := by
        simp [save_for_pretrained_min_key, h]
      rw [hy] at hx
      exact absurd hx (by decide)
    · intro hh
      exact absurd hh h

/-- Witness for C8's amended statement: a global `"mode"` entry of
`"homograph"` yields the `PER_homograph` key even for a NORMAL-mode step. -/
theorem export_min_key_follows_global_mode_witness :
    runStepExport (some "homograph") true TrainMode.NORMAL
      = some "PER_homograph" :=
  (export_min_key_follows_global_mode (some "homograph")
    TrainMode.NORMAL).1.mpr rfl

/-- C9 counterexample: the token `a<b` contains an angle bracket but is not
delimited by angle brackets, yet `_remove_special` strips it — so a token
is not stripped exactly when it is a special token delimited by angle
brackets. -/
theorem strip_token_not_angle_delimited_cx :
    remove_special ["a<b"] = []
    ∧ spec_isAngleBracketDelimited "a<b" = false := by
  exact ⟨by decide, by decide⟩

/-- C9 amended: converting two identical phoneme sequences to
space-separated label strings with special tokens stripped yields identical
strings, and the edit-distance error rate between the stripped hypothesis
and target token sequences is 0; a token is stripped exactly when it
contains the angle-bracket character `<` (every token delimited by angle
brackets in particular). -/
theorem identical_sequences_zero_error_rate
    (decode : List (List Nat) → List (List String))
    (hyp tgt : List (List Nat)) (h : hyp = tgt) :
    phonemes_to_label decode hyp = phonemes_to_label decode tgt
    ∧ (∀ p ∈ (decode hyp).zip (decode tgt),
        levDistance (remove_special p.1) (remove_special p.2) = 0)
    ∧ (∀ t : String, remove_special [t] = [] ↔ t.toList.contains '<' = true) := by
  subst h
  refine ⟨rfl, ?_, ?_⟩
  · intro p hp
    have hpq : p.1 = p.2 := zip_self_fst_eq_snd (decode hyp) p hp
    rw [hpq]
    exact levDistance_self (remove_special p.2)
  · intro t
    by_cases hc : t.toList.contains '<' = true <;>
      simp [remove_special, hc]

/-- Witness for C9's amended statement at a concrete decoder and batch: the
labels agree, and the reserved `<eos>` token is stripped. -/
theorem identical_sequences_zero_error_rate_witness :
    phonemes_to_label decoderW [[1, 2]] = phonemes_to_label decoderW [[1, 2]]
    ∧ (∀ p ∈ (decoderW [[1, 2]]).zip (decoderW [[1, 2]]),
        levDistance (remove_special p.1) (remove_special p.2) = 0)
    ∧ (remove_special ["<eos>"] = [] ↔ "<eos>".toList.contains '<' = true) := by
  have h := identical_sequences_zero_error_rate decoderW [[1, 2]] [[1, 2]] rfl
  exact ⟨h.1, h.2.1, h.2.2 "<eos>"⟩

/-- C10: beam-search hypotheses are produced exactly when the stage is not
TRAIN and evaluation metrics are enabled (a conjunction); with metrics
disabled the hypotheses are absent even in VALID and TEST and no
sequence-loss, error-rate, or homograph accumulator is appended to in any
stage; during TRAIN the hypotheses are always absent. -/
theorem beam_search_iff_not_train_and_metrics (cfg : G2PConfig)
    (ctc_epochs current_epoch : Nat) (stage : Stage) (m : ModelOutput)
    (bs bsv : List (List ℚ) → List ℚ → List (List Nat))
    (ctc_head : List (List ℚ) → List (List ℚ)) (mode : TrainMode)
    (ls lc hc : ℚ) :
    ((compute_forward cfg ctc_epochs current_epoch stage m bs bsv
        ctc_head).hyps.isSome
      = ((stage != Stage.TRAIN) && cfg.enable_metrics))
    ∧ (cfg.enable_metrics = false →
        (compute_forward cfg ctc_epochs current_epoch stage m bs bsv
          ctc_head).hyps = Option.none
        ∧ (compute_objectives cfg ctc_epochs current_epoch mode stage
            ls lc hc).seq_metrics_appended = false
        ∧ (compute_objectives cfg ctc_epochs current_epoch mode stage
            ls lc hc).per_metrics_appended = false
        ∧ (compute_objectives cfg ctc_epochs current_epoch mode stage
            ls lc hc).homograph_metrics_appended = false)
    ∧ (stage = Stage.TRAIN →
        (compute_forward cfg ctc_epochs current_epoch stage m bs bsv
          ctc_head).hyps = Option.none) := by
  refine ⟨?_, ?_, ?_⟩
  · by_cases hs : stage = Stage.TRAIN <;>
      by_cases he : cfg.enable_metrics = true <;>
        simp [compute_forward, hs, he, Bool.not_eq_true] at *
  · intro he
    refine ⟨?_, ?_, ?_, ?_⟩ <;>
      simp [compute_forward, compute_objectives, he]
  · intro hs
    simp [compute_forward, hs]

/-- Witness for C10: in VALID with metrics enabled hypotheses are present;
with metrics disabled they are absent and nothing is appended; in TRAIN
they are absent. -/
theorem beam_search_iff_not_train_and_metrics_witness :
    ((compute_forward ⟨false, 0, 0, true⟩ 0 1 Stage.VALID
        ⟨[], [], [], []⟩ (fun _ _ => []) (fun _ _ => []) id).hyps.isSome
      = ((Stage.VALID != Stage.TRAIN) && true))
    ∧ ((compute_forward ⟨false, 0, 0, false⟩ 0 1 Stage.VALID
        ⟨[], [], [], []⟩ (fun _ _ => []) (fun _ _ => []) id).hyps
      = Option.none)
    ∧ ((compute_forward ⟨false, 0, 0, true⟩ 0 1 Stage.TRAIN
        ⟨[], [], [], []⟩ (fun _ _ => []) (fun _ _ => []) id).hyps
      = Option.none) := by
  refine ⟨?_, ?_, ?_⟩
  · exact (beam_search_iff_not_train_and_metrics ⟨false, 0, 0, true⟩ 0 1
      Stage.VALID ⟨[], [], [], []⟩ (fun _ _ => []) (fun _ _ => []) id
      TrainMode.NORMAL 0 0 0).1
  · exact ((beam_search_iff_not_train_and_metrics ⟨false, 0, 0, false⟩ 0 1
      Stage.VALID ⟨[], [], [], []⟩ (fun _ _ => []) (fun _ _ => []) id
      TrainMode.NORMAL 0 0 0).2.1 rfl).1
  · exact (beam_search_iff_not_train_and_metrics ⟨false, 0, 0, true⟩ 0 1
      Stage.TRAIN ⟨[], [], [], []⟩ (fun _ _ => []) (fun _ _ => []) id
      TrainMode.NORMAL 0 0 0).2.2 rfl
